import Mathlib

/-
Verification development for the provider-gateway core of the
encore-completions-go repository: shallow embedding of the data model
(src/models/chat.go), the configuration collaborator (src/config/config.go),
the provider registry (src/providers/registry.go), the orchestrator
(src/services/chat_service.go, current snapshot), and the per-provider
request/response translation of the five adapters.

Go machine integers are modelled as Int, Go float64 values are carried
opaquely (the core never performs arithmetic on them) and are modelled as
Rat, Go nilable pointers as Option, and Go strings as Lean String (or
List Char where character-level reasoning is needed).
-/

set_option maxHeartbeats 1000000

namespace EncoreChat

/-- models.GoogleSearch: empty marker struct. -/
structure GoogleSearch where
  deriving DecidableEq

/-- models.Tool: wraps the GoogleSearch marker. -/
structure Tool where
  googleSearch : GoogleSearch
  deriving DecidableEq

/-- models.ImageURL. -/
structure ImageURL where
  url : String
  deriving DecidableEq

/-- models.ContentPart: tagged by the `type` string exactly as in Go
("text" carries `text`, "image_url" carries `imageURL`). -/
structure ContentPart where
  type : String
  text : String := ""
  imageURL : Option ImageURL := none
  deriving DecidableEq

/-- models.ChatMessage. -/
structure ChatMessage where
  role : String
  content : List ContentPart
  deriving DecidableEq

/-- models.ChatRequest (current snapshot; `imageData` is the raw image
payload/reference field referenced by chat_service.go and chutes.go). -/
structure ChatRequest where
  messages : List ChatMessage := []
  prompt : String := ""
  model : String := ""
  temperature : Option Rat := none
  maxTokens : Option Int := none
  stream : Option Bool := none
  provider : String := ""
  withImage : Bool := false
  imageData : String := ""
  tools : List Tool := []
  deriving DecidableEq

/-- models.Choice. -/
structure Choice where
  index : Int
  message : ChatMessage
  finishReason : String
  deriving DecidableEq

/-- models.Usage. -/
structure Usage where
  promptTokens : Int
  completionTokens : Int
  totalTokens : Int
  deriving DecidableEq

/-- models.ChatResponse. -/
structure ChatResponse where
  id : String
  object : String
  created : Int
  model : String
  choices : List Choice
  usage : Usage
  deriving DecidableEq

/-- models.TestProviderResponse. -/
structure TestProviderResponse where
  provider : String
  status : String
  deriving DecidableEq

/-- config.Config: the API-key table. A Go map lookup yields the zero
value "" for absent keys, so the table is modelled as a total function. -/
structure Config where
  apiKeys : String → String

/-- config.Config.GetAPIKey. -/
def Config.getAPIKey (c : Config) (provider : String) : String :=
  c.apiKeys provider

/-- config.Config.GetSupportedProviders (ignores the receiver in Go). -/
def getSupportedProviders : List String :=
  ["groq", "openrouter", "gemini", "atlas", "chutes"]

/-- config.Config.IsValidProvider: linear scan of the supported list. -/
def isValidProvider (provider : String) : Bool :=
  getSupportedProviders.contains provider

/-- The five concrete provider adapter types registered by
providers.InitProviders. -/
inductive ProviderId where
  | gemini
  | openrouter
  | groq
  | atlas
  | chutes
  deriving DecidableEq

/-- The GetName method of each adapter (gemini.go, openrouter.go, groq.go,
atlas.go, chutes.go). -/
def ProviderId.getName : ProviderId → String
  | .gemini => "gemini"
  | .openrouter => "openrouter"
  | .groq => "groq"
  | .atlas => "atlas"
  | .chutes => "chutes"

/-- The process-wide provider map of registry.go. -/
def Registry : Type := String → Option ProviderId

/-- providers.RegisterProvider: map insert/overwrite. -/
def registerProvider (name : String) (p : ProviderId) (m : Registry) : Registry :=
  fun n => if n = name then some p else m n

/-- The empty provider map (registry.go initial state). -/
def emptyRegistry : Registry := fun _ => none

/-- providers.GetProvider: lookup, failing with an error when absent. -/
def getProvider (m : Registry) (name : String) : Except String ProviderId :=
  match m name with
  | none => Except.error ("provider " ++ name ++ " not found")
  | some p => Except.ok p

/-- providers.InitProviders: registers the five adapters in source order
(gemini, openrouter, groq, atlas, chutes). -/
def initProviders : Registry :=
  registerProvider "chutes" ProviderId.chutes
    (registerProvider "atlas" ProviderId.atlas
      (registerProvider "groq" ProviderId.groq
        (registerProvider "openrouter" ProviderId.openrouter
          (registerProvider "gemini" ProviderId.gemini emptyRegistry))))

/-- services.DefaultTemperature = 0.5. -/
def defaultTemperature : Rat := 1 / 2

/-- services.DefaultMaxTokens = 1000. -/
def defaultMaxTokens : Int := 1000

/-- services.setDefaults: fill temperature/max tokens when absent. -/
def setDefaults (req : ChatRequest) : ChatRequest :=
  { req with
    temperature := match req.temperature with
      | none => some defaultTemperature
      | some t => some t
    maxTokens := match req.maxTokens with
      | none => some defaultMaxTokens
      | some v => some v }

/-- services.getProviderName: default provider fallback ("groq"). -/
def getProviderName (providerName : String) : String :=
  if providerName = "" then "groq" else providerName

/-- The user ChatMessage assembled by ProcessChatCompletion: a text part
when the prompt is non-empty, then an image part when WithImage is set and
ImageData is non-empty (chat_service.go lines 180-201). -/
def buildUserMessage (req : ChatRequest) : ChatMessage :=
  { role := "user"
    content :=
      (if req.prompt ≠ "" then [{ type := "text", text := req.prompt }] else []) ++
      (if req.withImage = true ∧ req.imageData ≠ "" then
        [{ type := "image_url", imageURL := some { url := req.imageData } }]
      else []) }

/-- Outcome of the orchestrator up to (and excluding) the adapter call.
Every network call of ProcessChatCompletion happens inside the adapter, so
`callProvider` is the only outcome in which network traffic can occur. -/
inductive OrchResult where
  | invalidRequest
  | missingAPIKey (provider : String)
  | unknownProvider (err : String)
  | callProvider (p : ProviderId) (req : ChatRequest) (apiKey : String)

/-- Number of adapter invocations (hence upper bound 0 on network calls
outside `callProvider`) performed for a given orchestrator outcome. -/
def adapterInvocations : OrchResult → Nat
  | .callProvider _ _ _ => 1
  | _ => 0

/-- services.ChatService.ProcessChatCompletion (current snapshot,
chat_service.go lines 172-222): validate, apply defaults, build the
normalized message list (overwriting req.Messages), resolve provider name,
resolve API key, look up the adapter, dispatch. -/
def processChatCompletion (cfg : Config) (req : ChatRequest) : OrchResult :=
  if req.prompt = "" ∧ req.withImage = false then
    OrchResult.invalidRequest
  else
    let req1 := setDefaults req
    let req2 := { req1 with messages := [buildUserMessage req1] }
    let providerName := getProviderName req.provider
    let apiKey := cfg.getAPIKey providerName
    if apiKey = "" then
      OrchResult.missingAPIKey providerName
    else
      match getProvider initProviders providerName with
      | Except.error e => OrchResult.unknownProvider e
      | Except.ok p => OrchResult.callProvider p req2 apiKey

/-- services.ChatService.TestProvider (current snapshot, chat_service.go
lines 259-288): empty identifier, then provider validity, then key
presence (reusing the StatusNoAPIKeys constant "no_api_keys"). -/
def testProvider (cfg : Config) (provider : String) : TestProviderResponse :=
  if provider = "" then
    { provider := provider, status := "invalid_request" }
  else if ¬ (isValidProvider provider = true) then
    { provider := provider, status := "invalid_provider" }
  else if cfg.getAPIKey provider = "" then
    { provider := provider, status := "no_api_keys" }
  else
    { provider := provider, status := "healthy" }

/-- strings.HasPrefix over character lists. -/
def hasPrefixL : List Char → List Char → Bool
  | [], _ => true
  | _ :: _, [] => false
  | p :: ps, c :: cs => p == c && hasPrefixL ps cs

/-- strings.HasSuffix over character lists. -/
def hasSuffixL (suf s : List Char) : Bool :=
  hasPrefixL suf.reverse s.reverse

/-- strings.TrimPrefix over character lists. -/
def trimPrefixL (p s : List Char) : List Char :=
  if hasPrefixL p s then s.drop p.length else s

/-- strings.TrimSuffix over character lists. -/
def trimSuffixL (suf s : List Char) : List Char :=
  if hasSuffixL suf s then s.take (s.length - suf.length) else s

/-- strings.HasPrefix on Lean strings. -/
def hasPrefixS (p s : String) : Bool :=
  hasPrefixL p.toList s.toList

/-- strings.TrimPrefix on Lean strings. -/
def trimPrefixS (p s : String) : String :=
  String.mk (trimPrefixL p.toList s.toList)

/-- strings.ToLower (ASCII-faithful model of the Unicode original; every
finish-reason string handled by the adapters is ASCII). -/
def goToLower (s : String) : String :=
  String.mk (s.toList.map Char.toLower)

/-- strings.SplitN(s, ",", 2): position of the first comma, yielding the
two surrounding segments, or none when the string has no comma (in which
case Go returns a one-element slice). -/
def breakAtComma : List Char → Option (List Char × List Char)
  | [] => none
  | c :: cs =>
    if c = ',' then some ([], cs)
    else (breakAtComma cs).map (fun p => (c :: p.1, p.2))

/-- The encoding/base64 StdEncoding alphabet used by
base64.StdEncoding.EncodeToString in the image downloader. -/
def b64Chars : List Char :=
  "ABCDEFGHIJKLMNOPQRSTUVWXYZabcdefghijklmnopqrstuvwxyz0123456789+/".toList

/-- Character of a 6-bit group. -/
def b64Char (n : Nat) : Char :=
  b64Chars.getD n 'A'

/-- Index of a character in the standard alphabet (64 when absent). -/
def b64Index (c : Char) : Nat :=
  b64Chars.indexOf c

/-- base64.StdEncoding.EncodeToString: bytes (as Nat values < 256) to the
padded standard base64 character sequence. -/
def base64EncodeList : List Nat → List Char
  | [] => []
  | [a] => [b64Char (a / 4), b64Char (a % 4 * 16), '=', '=']
  | [a, b] => [b64Char (a / 4), b64Char (a % 4 * 16 + b / 16), b64Char (b % 16 * 4), '=']
  | a :: b :: c :: rest =>
    b64Char (a / 4) :: b64Char (a % 4 * 16 + b / 16) ::
      b64Char (b % 16 * 4 + c / 64) :: b64Char (c % 64) :: base64EncodeList rest

/-- base64.StdEncoding.DecodeString on well-formed input: quadruples of
alphabet characters with optional trailing padding back to bytes. -/
def base64DecodeList : List Char → List Nat
  | c1 :: c2 :: c3 :: c4 :: rest =>
    if c3 = '=' then
      [b64Index c1 * 4 + b64Index c2 / 16]
    else if c4 = '=' then
      [b64Index c1 * 4 + b64Index c2 / 16,
       b64Index c2 % 16 * 16 + b64Index c3 / 4]
    else
      (b64Index c1 * 4 + b64Index c2 / 16) ::
        (b64Index c2 % 16 * 16 + b64Index c3 / 4) ::
        (b64Index c3 % 4 * 64 + b64Index c4) :: base64DecodeList rest
  | _ => []

/-- The data-URI branch of GeminiProvider.ChatCompletion (registry.go
lines 133-143): split at the first comma, mime type is the header with
"data:" and ";base64" trimmed; no comma means a malformed data URI. -/
def geminiResolveDataURI (uri : List Char) : Except String (List Char × List Char) :=
  match breakAtComma uri with
  | none => Except.error "invalid image data URI format"
  | some (header, b64) =>
    Except.ok (b64, trimSuffixL ";base64".toList (trimPrefixL "data:".toList header))

/-- The image-reference dispatch of GeminiProvider.ChatCompletion
(registry.go lines 133-153): data URIs are resolved locally, http(s)
references go through the downloader (abstracted as the `download`
oracle), anything else is rejected. Resolution yields the
(base64-payload, mime-type) pair. -/
def geminiResolveImageRef (download : List Char → Except String (List Char × List Char))
    (uri : List Char) : Except String (List Char × List Char) :=
  if hasPrefixL "data:image/".toList uri then
    geminiResolveDataURI uri
  else if hasPrefixL "http://".toList uri || hasPrefixL "https://".toList uri then
    download uri
  else
    Except.error ("unsupported image URL format: " ++ String.mk uri)

/-- One content part of an OpenAI-style upstream request payload (the
`map[string]interface{}` parts built by groq.go / openrouter.go). -/
inductive PartPayload where
  | text (s : String)
  | imageUrl (url : String)
  deriving DecidableEq

/-- One message of an OpenAI-style upstream request payload. -/
structure MsgPayload where
  role : String
  content : List PartPayload
  deriving DecidableEq

/-- OpenAI-style upstream request payload: a JSON key for temperature or
max_tokens exists in the serialized payload iff the corresponding field
here is `some`. -/
structure OpenAIPayload where
  model : String
  messages : List MsgPayload
  temperature : Option Rat
  maxTokens : Option Int
  deriving DecidableEq

/-- groq.go content-part translation (lines 38-66): text parts map
directly; image_url parts with a non-nil reference are forwarded verbatim
after rejecting an all-whitespace URL; everything else is skipped. -/
def groqTranslatePart (part : ContentPart) : Except String (List PartPayload) :=
  if part.type = "text" then
    Except.ok [PartPayload.text part.text]
  else if part.type = "image_url" then
    match part.imageURL with
    | none => Except.ok []
    | some u =>
      if u.url.trim = "" then Except.error "empty image URL provided"
      else Except.ok [PartPayload.imageUrl u.url]
  else
    Except.ok []

/-- groq.go message translation (lines 35-72). -/
def groqBuildMessages (msgs : List ChatMessage) : Except String (List MsgPayload) :=
  msgs.mapM fun m =>
    (m.content.mapM groqTranslatePart).map fun ps => ⟨m.role, ps.flatten⟩

/-- groq.go effective model (lines 74-81): explicit model, else the
image-capable default when an image is attached, else the text default. -/
def groqModel (req : ChatRequest) : String :=
  if req.model = "" then
    if req.withImage then "meta-llama/llama-4-maverick-17b-128e-instruct"
    else "openai/gpt-oss-120b"
  else req.model

/-- groq.go payload assembly (lines 83-93): temperature and max_tokens are
attached only when present on the request. -/
def groqBuildPayload (req : ChatRequest) : Except String OpenAIPayload :=
  (groqBuildMessages req.messages).map fun msgs =>
    { model := groqModel req
      messages := msgs
      temperature := req.temperature
      maxTokens := req.maxTokens }

/-- openrouter.go content-part translation (lines 33-49): total, no
validation. -/
def openRouterTranslatePart (part : ContentPart) : List PartPayload :=
  if part.type = "text" then [PartPayload.text part.text]
  else if part.type = "image_url" then
    match part.imageURL with
    | none => []
    | some u => [PartPayload.imageUrl u.url]
  else []

/-- openrouter.go effective model (lines 56-63). -/
def openRouterModel (req : ChatRequest) : String :=
  if req.model = "" then
    if req.withImage then "google/gemini-2.5-flash-image-preview:free"
    else "deepseek/deepseek-chat-v3.1:free"
  else req.model

/-- openrouter.go payload assembly (lines 31-75). -/
def openRouterBuildPayload (req : ChatRequest) : OpenAIPayload :=
  { model := openRouterModel req
    messages := req.messages.map fun m =>
      ⟨m.role, (m.content.map openRouterTranslatePart).flatten⟩
    temperature := req.temperature
    maxTokens := req.maxTokens }

/-- atlas.go request payload (lines 29-52): a single flat-prompt user
message; the snapshot ignores req.Messages entirely. -/
structure AtlasPayload where
  model : String
  messages : List (String × String)
  temperature : Option Rat
  maxTokens : Option Int
  deriving DecidableEq

/-- atlas.go payload assembly. -/
def atlasBuildPayload (req : ChatRequest) : AtlasPayload :=
  { model := if req.model = "" then "openai/gpt-oss-20b" else req.model
    messages := [("user", req.prompt)]
    temperature := req.temperature
    maxTokens := req.maxTokens }

/-- chutes.go request payload (lines 29-68): one user message whose
content is a models.ContentPart list built from the flat prompt and the
raw image data. -/
structure ChutesPayload where
  model : String
  messages : List (String × List ContentPart)
  temperature : Option Rat
  maxTokens : Option Int
  deriving DecidableEq

/-- chutes.go payload assembly: always a text part (even for an empty
prompt), then an inline jpeg data URI built from ImageData when attached. -/
def chutesBuildPayload (req : ChatRequest) : ChutesPayload :=
  { model := if req.model = "" then "zai-org/GLM-4.5-FP8" else req.model
    messages :=
      [("user",
        [{ type := "text", text := req.prompt }] ++
        (if req.withImage = true ∧ req.imageData ≠ "" then
          [{ type := "image_url",
             imageURL := some { url := "data:image/jpeg;base64," ++ req.imageData } }]
        else []))]
    temperature := req.temperature
    maxTokens := req.maxTokens }

/-- One part of a Gemini request payload. -/
inductive GeminiPart where
  | text (s : String)
  | inlineData (mime data : String)
  deriving DecidableEq

/-- The generationConfig object of a Gemini request payload; a key exists
in the serialized JSON iff the field is `some`. -/
structure GeminiGenConfig where
  temperature : Option Rat
  maxOutputTokens : Option Int
  deriving DecidableEq

/-- Gemini request payload; `generationConfig` is attached iff it is
`some`, and `safetySettings` lists the (category, threshold) pairs. -/
structure GeminiPayload where
  model : String
  contents : List (List GeminiPart)
  generationConfig : Option GeminiGenConfig
  safetySettings : List (String × String)
  deriving DecidableEq

/-- Temperature key of a Gemini payload, when present. -/
def geminiPayloadTemperature (p : GeminiPayload) : Option Rat :=
  match p.generationConfig with
  | none => none
  | some g => g.temperature

/-- maxOutputTokens key of a Gemini payload, when present. -/
def geminiPayloadMaxOutputTokens (p : GeminiPayload) : Option Int :=
  match p.generationConfig with
  | none => none
  | some g => g.maxOutputTokens

/-- gemini.go content-part translation (lines 71-115): jpeg/png data URIs
are unwrapped by prefix-trimming, http(s) references go through the
downloader oracle, anything else is an error. -/
def geminiOldTranslatePart (download : List Char → Except String (List Char × List Char))
    (part : ContentPart) : Except String (List GeminiPart) :=
  if part.type = "text" then
    Except.ok [GeminiPart.text part.text]
  else if part.type = "image_url" then
    match part.imageURL with
    | none => Except.ok []
    | some u =>
      if hasPrefixS "data:image/jpeg;base64," u.url then
        Except.ok [GeminiPart.inlineData "image/jpeg" (trimPrefixS "data:image/jpeg;base64," u.url)]
      else if hasPrefixS "data:image/png;base64," u.url then
        Except.ok [GeminiPart.inlineData "image/png" (trimPrefixS "data:image/png;base64," u.url)]
      else if hasPrefixS "http://" u.url || hasPrefixS "https://" u.url then
        match download u.url.toList with
        | Except.error e => Except.error ("failed to download image: " ++ e)
        | Except.ok (data, mime) =>
          Except.ok [GeminiPart.inlineData (String.mk mime) (String.mk data)]
      else
        Except.error ("unsupported image data URI format: " ++ u.url)
  else
    Except.ok []

/-- Flatten a message list through a per-part translator, aborting on the
first error (the nested loops of both Gemini variants). -/
def geminiBuildParts (tr : ContentPart → Except String (List GeminiPart))
    (msgs : List ChatMessage) : Except String (List GeminiPart) :=
  ((msgs.map ChatMessage.content).flatten.mapM tr).map List.flatten

/-- Effective Gemini model (both variants): explicit, else
gemini-2.5-flash. -/
def geminiModel (req : ChatRequest) : String :=
  if req.model = "" then "gemini-2.5-flash" else req.model

/-- gemini.go payload assembly (lines 117-135): generationConfig is
attached only when at least one of temperature/maxOutputTokens is present,
and each key is attached iff present on the request; no safety settings. -/
def geminiOldBuildPayload (download : List Char → Except String (List Char × List Char))
    (req : ChatRequest) : Except String GeminiPayload :=
  (geminiBuildParts (geminiOldTranslatePart download) req.messages).map fun parts =>
    { model := geminiModel req
      contents := [parts]
      generationConfig :=
        if req.temperature.isSome || req.maxTokens.isSome then
          some { temperature := req.temperature, maxOutputTokens := req.maxTokens }
        else none
      safetySettings := [] }

/-- Content-part translation of the registry.go Gemini variant
(lines 119-165): image references resolve through geminiResolveImageRef
and the inline-data part is appended only when both the payload and the
mime type are non-empty. -/
def geminiRegistryTranslatePart (download : List Char → Except String (List Char × List Char))
    (part : ContentPart) : Except String (List GeminiPart) :=
  if part.type = "text" then
    Except.ok [GeminiPart.text part.text]
  else if part.type = "image_url" then
    match part.imageURL with
    | none => Except.ok []
    | some u =>
      match geminiResolveImageRef download u.url.toList with
      | Except.error e => Except.error e
      | Except.ok (data, mime) =>
        if data ≠ [] ∧ mime ≠ [] then
          Except.ok [GeminiPart.inlineData (String.mk mime) (String.mk data)]
        else
          Except.ok []
  else
    Except.ok []

/-- The constant safetySettings block of the registry.go Gemini variant
(lines 196-214). -/
def geminiSafetySettings : List (String × String) :=
  [("HARM_CATEGORY_DANGEROUS_CONTENT", "BLOCK_NONE"),
   ("HARM_CATEGORY_HATE_SPEECH", "BLOCK_NONE"),
   ("HARM_CATEGORY_HARASSMENT", "BLOCK_NONE"),
   ("HARM_CATEGORY_SEXUALLY_EXPLICIT", "BLOCK_NONE")]

/-- registry.go Gemini payload assembly (lines 119-214): rejects an empty
part list, attaches temperature iff present, but always attaches
maxOutputTokens, substituting 2048 when the request omits max tokens. -/
def geminiRegistryBuildPayload (download : List Char → Except String (List Char × List Char))
    (req : ChatRequest) : Except String GeminiPayload := do
  let parts ← geminiBuildParts (geminiRegistryTranslatePart download) req.messages
  if parts = [] then
    Except.error "no valid content found in the request messages"
  else
    Except.ok
      { model := geminiModel req
        contents := [parts]
        generationConfig :=
          some { temperature := req.temperature
                 maxOutputTokens := some (match req.maxTokens with
                   | some v => v
                   | none => 2048) }
        safetySettings := geminiSafetySettings }

/-- Message of an OpenAI-style upstream reply (flat string content). -/
structure UpstreamMsg where
  role : String
  content : String
  deriving DecidableEq

/-- Choice of an OpenAI-style upstream reply. -/
structure UpstreamChoice where
  index : Int
  message : UpstreamMsg
  finishReason : String
  deriving DecidableEq

/-- Usage block of an upstream reply. -/
structure UpstreamUsage where
  promptTokens : Int
  completionTokens : Int
  totalTokens : Int
  deriving DecidableEq

/-- Parsed OpenAI-style upstream reply (groq.go / openrouter.go /
atlas.go / chutes.go response schema). -/
structure UpstreamResponse where
  id : String
  object : String
  created : Int
  model : String
  choices : List UpstreamChoice
  usage : UpstreamUsage
  deriving DecidableEq

/-- groq.go response mapping (lines 164-194): id/object/created/model and
the three usage counters are copied 1:1, each choice keeps its index,
role and finish reason verbatim, and the flat content string becomes a
single text ContentPart. -/
def groqMapResponse (r : UpstreamResponse) : ChatResponse :=
  { id := r.id
    object := r.object
    created := r.created
    model := r.model
    choices := r.choices.map fun ch =>
      { index := ch.index
        message := { role := ch.message.role
                     content := [{ type := "text", text := ch.message.content }] }
        finishReason := ch.finishReason }
    usage := { promptTokens := r.usage.promptTokens
               completionTokens := r.usage.completionTokens
               totalTokens := r.usage.totalTokens } }

/-- openrouter.go response mapping (lines 138-166): identical shape to the
Groq mapping. -/
def openRouterMapResponse (r : UpstreamResponse) : ChatResponse :=
  { id := r.id
    object := r.object
    created := r.created
    model := r.model
    choices := r.choices.map fun ch =>
      { index := ch.index
        message := { role := ch.message.role
                     content := [{ type := "text", text := ch.message.content }] }
        finishReason := ch.finishReason }
    usage := { promptTokens := r.usage.promptTokens
               completionTokens := r.usage.completionTokens
               totalTokens := r.usage.totalTokens } }

/-- chutes.go response mapping (lines 129-157): identical shape to the
Groq mapping. -/
def chutesMapResponse (r : UpstreamResponse) : ChatResponse :=
  { id := r.id
    object := r.object
    created := r.created
    model := r.model
    choices := r.choices.map fun ch =>
      { index := ch.index
        message := { role := ch.message.role
                     content := [{ type := "text", text := ch.message.content }] }
        finishReason := ch.finishReason }
    usage := { promptTokens := r.usage.promptTokens
               completionTokens := r.usage.completionTokens
               totalTokens := r.usage.totalTokens } }

/-- Chat message of the atlas.go snapshot, which predates the multi-part
content model: content is a flat string. -/
structure LegacyChatMessage where
  role : String
  content : String
  deriving DecidableEq

/-- Choice shape of the atlas.go snapshot. -/
structure LegacyChoice where
  index : Int
  message : LegacyChatMessage
  finishReason : String
  deriving DecidableEq

/-- Response shape of the atlas.go snapshot. -/
structure LegacyChatResponse where
  id : String
  object : String
  created : Int
  model : String
  choices : List LegacyChoice
  usage : Usage
  deriving DecidableEq

/-- atlas.go response mapping (lines 113-137): indices, roles, contents
and finish reasons are all copied verbatim; usage counters 1:1. -/
def atlasMapResponse (r : UpstreamResponse) : LegacyChatResponse :=
  { id := r.id
    object := r.object
    created := r.created
    model := r.model
    choices := r.choices.map fun ch =>
      { index := ch.index
        message := { role := ch.message.role, content := ch.message.content }
        finishReason := ch.finishReason }
    usage := { promptTokens := r.usage.promptTokens
               completionTokens := r.usage.completionTokens
               totalTokens := r.usage.totalTokens } }

/-- One part of a Gemini candidate reply. -/
structure GeminiRespPart where
  text : String
  deriving DecidableEq

/-- One Gemini candidate reply. -/
structure GeminiCandidate where
  parts : List GeminiRespPart
  finishReason : String
  deriving DecidableEq

/-- Parsed Gemini upstream reply. -/
structure GeminiUpstreamResponse where
  candidates : List GeminiCandidate
  usageMetadata : UpstreamUsage
  deriving DecidableEq

/-- gemini.go choice mapping loop (lines 206-224): positional index, role
fixed to assistant, first part text (or empty) as the content, finish
reason lower-cased. -/
def geminiOldMapChoices (i : Nat) : List GeminiCandidate → List Choice
  | [] => []
  | cand :: rest =>
    { index := (i : Int)
      message := { role := "assistant"
                   content := [{ type := "text",
                                 text := match cand.parts with
                                   | [] => ""
                                   | p :: _ => p.text }] }
      finishReason := goToLower cand.finishReason } :: geminiOldMapChoices (i + 1) rest

/-- gemini.go response assembly (lines 192-226): the adapter fabricates
its own id ("gemini-" ++ unix time) and timestamp, echoes the effective
model, and copies the usageMetadata counters 1:1. -/
def geminiOldMapResponse (now : Int) (model : String) (r : GeminiUpstreamResponse) : ChatResponse :=
  { id := "gemini-" ++ toString now
    object := "chat.completion"
    created := now
    model := model
    choices := geminiOldMapChoices 0 r.candidates
    usage := { promptTokens := r.usageMetadata.promptTokens
               completionTokens := r.usageMetadata.completionTokens
               totalTokens := r.usageMetadata.totalTokens } }

/-- The fixed human-readable truncation placeholder of the registry.go
Gemini variant (line 314). -/
def truncationPlaceholder : String :=
  "The response was terminated early due to the \x27max_tokens\x27 limit. Please try increasing the max_tokens parameter."

/-- Choice mapping loop of the registry.go Gemini variant
(lines 306-330): like gemini.go, but when the lower-cased finish reason is
"max_tokens" and the candidate has zero parts, the content is replaced by
the fixed truncation placeholder. -/
def geminiRegistryMapChoices (i : Nat) : List GeminiCandidate → List Choice
  | [] => []
  | cand :: rest =>
    let content0 : String := match cand.parts with
      | [] => ""
      | p :: _ => if p.text ≠ "" then p.text else ""
    let fr := goToLower cand.finishReason
    let content := if fr = "max_tokens" ∧ cand.parts = [] then truncationPlaceholder else content0
    { index := (i : Int)
      message := { role := "assistant"
                   content := [{ type := "text", text := content }] }
      finishReason := fr } :: geminiRegistryMapChoices (i + 1) rest

/-- Fixture: oracle standing in for the image downloader; never consulted
by the theorems that use it. -/
def dlStub : List Char → Except String (List Char × List Char) :=
  fun _ => Except.error "stub"

/-- Fixture: request with one normalized user text message, an explicit
temperature and no max tokens. -/
def reqMsgHi : ChatRequest :=
  { messages := [{ role := "user", content := [{ type := "text", text := "hi" }] }]
    prompt := "hi"
    temperature := some 1 }

/-- Fixture: the Groq payload built from `reqMsgHi`. -/
def payloadGroqHi : OpenAIPayload :=
  { model := "openai/gpt-oss-120b"
    messages := [{ role := "user", content := [PartPayload.text "hi"] }]
    temperature := some 1
    maxTokens := none }

/-- Fixture: the gemini.go payload built from `reqMsgHi`. -/
def payloadGeminiOldHi : GeminiPayload :=
  { model := "gemini-2.5-flash"
    contents := [[GeminiPart.text "hi"]]
    generationConfig := some { temperature := some 1, maxOutputTokens := none }
    safetySettings := [] }

/-- Fixture: the registry.go Gemini payload built from `reqMsgHi`. -/
def payloadGeminiRegHi : GeminiPayload :=
  { model := "gemini-2.5-flash"
    contents := [[GeminiPart.text "hi"]]
    generationConfig := some { temperature := some 1, maxOutputTokens := some 2048 }
    safetySettings := geminiSafetySettings }

/-- Fixture: OpenAI-style upstream reply with an upper-case finish
reason. -/
def upstreamStop : UpstreamResponse :=
  { id := "x"
    object := "chat.completion"
    created := 1
    model := "m"
    choices := [{ index := 0
                  message := { role := "assistant", content := "hi there" }
                  finishReason := "STOP" }]
    usage := { promptTokens := 5, completionTokens := 2, totalTokens := 7 } }

/-- Fixture: OpenAI-style upstream reply reporting truncation with empty
content. -/
def upstreamLenEmpty : UpstreamResponse :=
  { id := "x"
    object := "chat.completion"
    created := 1
    model := "m"
    choices := [{ index := 0
                  message := { role := "assistant", content := "" }
                  finishReason := "length" }]
    usage := { promptTokens := 1, completionTokens := 0, totalTokens := 1 } }

/-- Fixture: truncated Gemini candidate with zero parts. -/
def candTrunc : GeminiCandidate := { parts := [], finishReason := "MAX_TOKENS" }

/-- Fixture: the PNG magic bytes, used as an arbitrary concrete byte
sequence. -/
def pngBytes : List Nat := [137, 80, 78, 71]

/-- Fixture: configuration with no key configured for any provider. -/
def cfgNoKeys : Config := ⟨fun _ => ""⟩

/-- Fixture: configuration with a key configured for every provider. -/
def cfgAllKeys : Config := ⟨fun _ => "k"⟩

/-- Fixture: configuration with a key only for groq. -/
def cfgGroqKey : Config := ⟨fun s => if s = "groq" then "k" else ""⟩

/-- Fixture: plain text request. -/
def reqHi : ChatRequest := { prompt := "hi" }

/-- Fixture: the request object observed by the adapter for `reqHi`. -/
def reqHiDispatched : ChatRequest :=
  { prompt := "hi"
    temperature := some defaultTemperature
    maxTokens := some defaultMaxTokens
    messages := [{ role := "user", content := [{ type := "text", text := "hi" }] }] }

/-- Fixture: request carrying a pre-built message list. -/
def reqPrebuilt : ChatRequest :=
  { messages := [{ role := "system", content := [{ type := "text", text := "ctx" }] }]
    prompt := "hi" }

/-- Fixture: request with the image flag set but no image data. -/
def reqImageFlagOnly : ChatRequest := { withImage := true }

/-- Fixture: the request object observed by the adapter for
`reqImageFlagOnly`. -/
def reqImageFlagOnlyDispatched : ChatRequest :=
  { withImage := true
    temperature := some defaultTemperature
    maxTokens := some defaultMaxTokens
    messages := [{ role := "user", content := [] }] }

/-- Claim C1: ProcessChatCompletion rejects a request with the
InvalidRequest error exactly when the prompt text is empty and no image is
attached; a non-empty prompt or an attached image never trips this
validation. -/
theorem claim1_invalid_request_iff (cfg : Config) (req : ChatRequest) :
    processChatCompletion cfg req = OrchResult.invalidRequest ↔
      (req.prompt = "" ∧ req.withImage = false) := by
  unfold processChatCompletion
  by_cases h : req.prompt = "" ∧ req.withImage = false
  · simp [h]
  · simp only [if_neg h]
    constructor
    · intro hc
      split at hc
      · exact absurd hc (by simp)
      · split at hc <;> exact absurd hc (by simp)
    · intro hc
      exact absurd hc h

/-- Claim C2 (corrected): TestProvider returns, in priority order,
invalid_request for an empty identifier, invalid_provider for an
identifier outside the supported set regardless of configured keys,
the status string "no_api_keys" (not "no_api_key": the handler reuses the
health-check constant StatusNoAPIKeys) for a supported identifier with an
empty key, and healthy otherwise. -/
theorem claim2_testProvider_statuses (cfg : Config) (p : String) :
    (p = "" → testProvider cfg p = ⟨p, "invalid_request"⟩) ∧
    (p ≠ "" → isValidProvider p = false → testProvider cfg p = ⟨p, "invalid_provider"⟩) ∧
    (p ≠ "" → isValidProvider p = true → cfg.getAPIKey p = "" →
      testProvider cfg p = ⟨p, "no_api_keys"⟩) ∧
    (p ≠ "" → isValidProvider p = true → cfg.getAPIKey p ≠ "" →
      testProvider cfg p = ⟨p, "healthy"⟩) := by
  refine ⟨?_, ?_, ?_, ?_⟩ <;> intros <;> simp [testProvider, *]

/-- Claim C2 counterexample: a supported provider with an empty configured
key yields the status string "no_api_keys", not the claimed "no_api_key". -/
theorem claim2_counterexample :
    testProvider cfgNoKeys "groq" = ⟨"groq", "no_api_keys"⟩ ∧
    ("no_api_keys" : String) ≠ "no_api_key" := by
  exact ⟨rfl, by decide⟩

/-- Claim C2 witness: the four statuses at concrete inputs. -/
theorem claim2_witness :
    testProvider cfgNoKeys "" = ⟨"", "invalid_request"⟩ ∧
    testProvider cfgAllKeys "made_up" = ⟨"made_up", "invalid_provider"⟩ ∧
    testProvider cfgNoKeys "groq" = ⟨"groq", "no_api_keys"⟩ ∧
    testProvider cfgAllKeys "groq" = ⟨"groq", "healthy"⟩ := by
  refine ⟨(claim2_testProvider_statuses cfgNoKeys "").1 rfl,
    (claim2_testProvider_statuses cfgAllKeys "made_up").2.1 (by decide) (by decide),
    (claim2_testProvider_statuses cfgNoKeys "groq").2.2.1 (by decide) (by decide) rfl,
    (claim2_testProvider_statuses cfgAllKeys "groq").2.2.2 (by decide) (by decide) (by decide)⟩

/-- Claim C3: whenever ProcessChatCompletion reaches adapter dispatch, the
request object handed to the adapter carries temperature 0.5 and max
tokens 1000 when the inbound request omitted them, and the supplied values
otherwise. -/
theorem claim3_defaults (cfg : Config) (req : ChatRequest) (p : ProviderId)
    (req2 : ChatRequest) (key : String)
    (h : processChatCompletion cfg req = OrchResult.callProvider p req2 key) :
    req2.temperature = some (req.temperature.getD defaultTemperature) ∧
    req2.maxTokens = some (req.maxTokens.getD defaultMaxTokens) := by
  unfold processChatCompletion at h
  split at h
  · exact absurd h (by simp)
  · dsimp only at h
    split at h
    · exact absurd h (by simp)
    · split at h
      · exact absurd h (by simp)
      · simp only [OrchResult.callProvider.injEq] at h
        obtain ⟨-, h2, -⟩ := h
        subst h2
        constructor
        · rcases htemp : req.temperature with _ | t <;> simp [setDefaults, htemp]
        · rcases hmax : req.maxTokens with _ | v <;> simp [setDefaults, hmax]

/-- Claim C3 witness: a request omitting both fields is dispatched with
temperature 0.5 and max tokens 1000. -/
theorem claim3_witness :
    reqHiDispatched.temperature = some (reqHi.temperature.getD defaultTemperature) ∧
    reqHiDispatched.maxTokens = some (reqHi.maxTokens.getD defaultMaxTokens) :=
  claim3_defaults cfgGroqKey reqHi ProviderId.groq reqHiDispatched "k" (by rfl)

/-- Claim C4 (corrected): the orchestrator always overwrites the request
message list with a single user message whose parts are a text part (iff
the prompt is non-empty) followed by an image part (iff the image flag is
set AND the raw image data is non-empty); a pre-built message list is
discarded, never used verbatim. -/
theorem claim4_message_overwrite (cfg : Config) (req : ChatRequest) (p : ProviderId)
    (req2 : ChatRequest) (key : String)
    (h : processChatCompletion cfg req = OrchResult.callProvider p req2 key) :
    req2.messages =
      [{ role := "user"
         content :=
           (if req.prompt ≠ "" then [{ type := "text", text := req.prompt }] else []) ++
           (if req.withImage = true ∧ req.imageData ≠ "" then
             [{ type := "image_url", imageURL := some { url := req.imageData } }]
           else []) }] := by
  unfold processChatCompletion at h
  split at h
  · exact absurd h (by simp)
  · dsimp only at h
    split at h
    · exact absurd h (by simp)
    · split at h
      · exact absurd h (by simp)
      · simp only [OrchResult.callProvider.injEq] at h
        obtain ⟨-, h2, -⟩ := h
        subst h2
        rfl

/-- Claim C4 counterexample: a request carrying a pre-built message list
is dispatched with that list replaced by the freshly built user message,
and a request with the image flag set but empty image data is dispatched
with no image part at all. -/
theorem claim4_counterexample :
    processChatCompletion cfgGroqKey reqPrebuilt =
      OrchResult.callProvider ProviderId.groq reqHiDispatched "k" ∧
    reqHiDispatched.messages ≠ reqPrebuilt.messages ∧
    processChatCompletion cfgGroqKey reqImageFlagOnly =
      OrchResult.callProvider ProviderId.groq reqImageFlagOnlyDispatched "k" ∧
    reqImageFlagOnly.withImage = true ∧
    reqImageFlagOnlyDispatched.messages = [{ role := "user", content := [] }] := by
  exact ⟨rfl, by decide, rfl, rfl, rfl⟩

/-- Claim C4 witness: the dispatched message list at a concrete input. -/
theorem claim4_witness :
    reqHiDispatched.messages =
      [{ role := "user"
         content :=
           (if reqPrebuilt.prompt ≠ "" then [{ type := "text", text := reqPrebuilt.prompt }] else []) ++
           (if reqPrebuilt.withImage = true ∧ reqPrebuilt.imageData ≠ "" then
             [{ type := "image_url", imageURL := some { url := reqPrebuilt.imageData } }]
           else []) }] :=
  claim4_message_overwrite cfgGroqKey reqPrebuilt ProviderId.groq reqHiDispatched "k" (by rfl)

/-- Claim C7: for a valid request naming a provider whose configured key
is empty, ProcessChatCompletion fails with the MissingAPIKey error and
performs zero adapter invocations (hence zero network calls), regardless
of whether the provider is even registered. -/
theorem claim7_missing_key (cfg : Config) (req : ChatRequest)
    (hval : ¬ (req.prompt = "" ∧ req.withImage = false))
    (hkey : cfg.getAPIKey (getProviderName req.provider) = "") :
    processChatCompletion cfg req = OrchResult.missingAPIKey (getProviderName req.provider) ∧
    adapterInvocations (processChatCompletion cfg req) = 0 := by
  have h1 : processChatCompletion cfg req =
      OrchResult.missingAPIKey (getProviderName req.provider) := by
    unfold processChatCompletion
    rw [if_neg hval]
    exact if_pos hkey
  exact ⟨h1, by rw [h1]; rfl⟩

/-- Claim C7 witness: empty key for the defaulted provider at a concrete
request. -/
theorem claim7_witness :
    processChatCompletion cfgNoKeys reqHi = OrchResult.missingAPIKey "groq" ∧
    adapterInvocations (processChatCompletion cfgNoKeys reqHi) = 0 :=
  claim7_missing_key cfgNoKeys reqHi (by decide) rfl

/-- Claim C10: after InitProviders, GetProvider succeeds exactly on the
five supported identifiers returned by GetSupportedProviders and fails on
every other string, and each returned adapter reports the identifier it
was registered under as its name. -/
theorem claim10_registry (name : String) :
    ((getProvider initProviders name).isOk = true ↔ name ∈ getSupportedProviders) ∧
    (∀ p : ProviderId, getProvider initProviders name = Except.ok p → p.getName = name) := by
  have hreg : initProviders name =
      (if name = "chutes" then some ProviderId.chutes else
       if name = "atlas" then some ProviderId.atlas else
       if name = "groq" then some ProviderId.groq else
       if name = "openrouter" then some ProviderId.openrouter else
       if name = "gemini" then some ProviderId.gemini else none) := rfl
  constructor
  · unfold getProvider
    rw [hreg]
    split_ifs <;> simp_all [getSupportedProviders, Except.isOk, Except.toBool]
  · intro p hp
    unfold getProvider at hp
    rw [hreg] at hp
    split_ifs at hp <;> simp_all [ProviderId.getName] <;> (subst hp; rfl)

/-- Claim C10 witness: lookup and name agreement at a concrete
identifier. -/
theorem claim10_witness :
    (getProvider initProviders "gemini").isOk = true ∧
    ProviderId.getName ProviderId.gemini = "gemini" :=
  ⟨(claim10_registry "gemini").1.mpr (by decide),
   (claim10_registry "gemini").2 ProviderId.gemini (by rfl)⟩

/-- Helper: element-wise view of the gemini.go choice-mapping loop. -/
theorem geminiOldMapChoices_getElem (k i : Nat) (l : List GeminiCandidate) :
    ((geminiOldMapChoices k l)[i]?).map Choice.index =
      (l[i]?).map (fun _ => ((k + i : Nat) : Int)) ∧
    ((geminiOldMapChoices k l)[i]?).map Choice.finishReason =
      (l[i]?).map (fun c => goToLower c.finishReason) := by
  induction l generalizing k i with
  | nil => simp [geminiOldMapChoices]
  | cons c rest ih =>
    cases i with
    | zero => simp [geminiOldMapChoices]
    | succ n =>
      have h := ih (k + 1) n
      have harith : k + 1 + n = k + (n + 1) := by omega
      simpa [geminiOldMapChoices, harith] using h

/-- Claim C5 (corrected): every adapter copies the three usage counters
1:1 and preserves choice order; the OpenAI-style adapters (Groq,
OpenRouter, Chutes, and the legacy Atlas snapshot) keep the upstream
index and copy the finish reason verbatim (no lower-casing), while the
Gemini adapter assigns positional indices and lower-cases the finish
reason. -/
theorem claim5_choice_mapping (r : UpstreamResponse) (g : GeminiUpstreamResponse)
    (now : Int) (model : String) (i : Nat) :
    (((groqMapResponse r).choices[i]?).map Choice.index =
        (r.choices[i]?).map UpstreamChoice.index ∧
      ((groqMapResponse r).choices[i]?).map Choice.finishReason =
        (r.choices[i]?).map UpstreamChoice.finishReason ∧
      (groqMapResponse r).usage =
        ⟨r.usage.promptTokens, r.usage.completionTokens, r.usage.totalTokens⟩) ∧
    (((openRouterMapResponse r).choices[i]?).map Choice.index =
        (r.choices[i]?).map UpstreamChoice.index ∧
      ((openRouterMapResponse r).choices[i]?).map Choice.finishReason =
        (r.choices[i]?).map UpstreamChoice.finishReason ∧
      (openRouterMapResponse r).usage =
        ⟨r.usage.promptTokens, r.usage.completionTokens, r.usage.totalTokens⟩) ∧
    (((chutesMapResponse r).choices[i]?).map Choice.index =
        (r.choices[i]?).map UpstreamChoice.index ∧
      ((chutesMapResponse r).choices[i]?).map Choice.finishReason =
        (r.choices[i]?).map UpstreamChoice.finishReason ∧
      (chutesMapResponse r).usage =
        ⟨r.usage.promptTokens, r.usage.completionTokens, r.usage.totalTokens⟩) ∧
    (((atlasMapResponse r).choices[i]?).map LegacyChoice.index =
        (r.choices[i]?).map UpstreamChoice.index ∧
      ((atlasMapResponse r).choices[i]?).map LegacyChoice.finishReason =
        (r.choices[i]?).map UpstreamChoice.finishReason ∧
      (atlasMapResponse r).usage =
        ⟨r.usage.promptTokens, r.usage.completionTokens, r.usage.totalTokens⟩) ∧
    (((geminiOldMapResponse now model g).choices[i]?).map Choice.index =
        (g.candidates[i]?).map (fun _ => (i : Int)) ∧
      ((geminiOldMapResponse now model g).choices[i]?).map Choice.finishReason =
        (g.candidates[i]?).map (fun c => goToLower c.finishReason) ∧
      (geminiOldMapResponse now model g).usage =
        ⟨g.usageMetadata.promptTokens, g.usageMetadata.completionTokens,
          g.usageMetadata.totalTokens⟩) := by
  have hgem := geminiOldMapChoices_getElem 0 i g.candidates
  simp only [Nat.zero_add] at hgem
  refine ⟨⟨?_, ?_, rfl⟩, ⟨?_, ?_, rfl⟩, ⟨?_, ?_, rfl⟩, ⟨?_, ?_, rfl⟩,
    ⟨hgem.1, hgem.2, rfl⟩⟩ <;>
  · simp only [groqMapResponse, openRouterMapResponse, chutesMapResponse, atlasMapResponse,
      List.getElem?_map, Option.map_map]
    cases r.choices[i]? <;> rfl

/-- Claim C5 counterexample: the Groq adapter copies the finish reason
verbatim; an upstream finish reason "STOP" is not lower-cased. -/
theorem claim5_counterexample :
    ((groqMapResponse upstreamStop).choices[0]?).map Choice.finishReason = some "STOP" ∧
    ("STOP" : String) ≠ "stop" := by
  exact ⟨rfl, by decide⟩

/-- Claim C6 (corrected): every adapter attaches the temperature field to
the upstream payload iff the request carries one, and all adapters except
the registry.go Gemini variant do the same for max tokens; that variant
always attaches maxOutputTokens, substituting the provider default 2048
when the request omits max tokens. -/
theorem claim6_optional_params
    (download : List Char → Except String (List Char × List Char)) (req : ChatRequest) :
    (∀ p : OpenAIPayload, groqBuildPayload req = Except.ok p →
      p.temperature = req.temperature ∧ p.maxTokens = req.maxTokens) ∧
    ((openRouterBuildPayload req).temperature = req.temperature ∧
      (openRouterBuildPayload req).maxTokens = req.maxTokens) ∧
    ((atlasBuildPayload req).temperature = req.temperature ∧
      (atlasBuildPayload req).maxTokens = req.maxTokens) ∧
    ((chutesBuildPayload req).temperature = req.temperature ∧
      (chutesBuildPayload req).maxTokens = req.maxTokens) ∧
    (∀ p : GeminiPayload, geminiOldBuildPayload download req = Except.ok p →
      geminiPayloadTemperature p = req.temperature ∧
      geminiPayloadMaxOutputTokens p = req.maxTokens) ∧
    (∀ p : GeminiPayload, geminiRegistryBuildPayload download req = Except.ok p →
      geminiPayloadTemperature p = req.temperature ∧
      geminiPayloadMaxOutputTokens p = some (req.maxTokens.getD 2048)) := by
  refine ⟨?_, ⟨rfl, rfl⟩, ⟨rfl, rfl⟩, ⟨rfl, rfl⟩, ?_, ?_⟩
  · intro p hp
    unfold groqBuildPayload at hp
    cases hmsgs : groqBuildMessages req.messages with
    | error e => rw [hmsgs] at hp; exact absurd hp (by simp [Except.map])
    | ok msgs =>
      rw [hmsgs] at hp
      simp only [Except.map, Except.ok.injEq] at hp
      subst hp
      exact ⟨rfl, rfl⟩
  · intro p hp
    unfold geminiOldBuildPayload at hp
    cases hparts : geminiBuildParts (geminiOldTranslatePart download) req.messages with
    | error e => rw [hparts] at hp; exact absurd hp (by simp [Except.map])
    | ok parts =>
      rw [hparts] at hp
      simp only [Except.map, Except.ok.injEq] at hp
      subst hp
      rcases htemp : req.temperature with _ | t <;>
        rcases hmax : req.maxTokens with _ | v <;>
        simp [geminiPayloadTemperature, geminiPayloadMaxOutputTokens, htemp, hmax]
  · intro p hp
    unfold geminiRegistryBuildPayload at hp
    cases hparts : geminiBuildParts (geminiRegistryTranslatePart download) req.messages with
    | error e => rw [hparts] at hp; exact Except.noConfusion hp
    | ok parts =>
      rw [hparts] at hp
      simp only [Except.bind, bind, Except.ok.injEq] at hp
      split at hp
      · exact absurd hp (by simp)
      · simp only [Except.ok.injEq] at hp
        subst hp
        refine ⟨rfl, ?_⟩
        rcases hmax : req.maxTokens with _ | v <;>
          simp [geminiPayloadMaxOutputTokens, hmax]

/-- Claim C6 counterexample: for a request omitting max tokens, the
registry.go Gemini adapter attaches maxOutputTokens = 2048, a
provider-specific default. -/
theorem claim6_counterexample :
    (geminiRegistryBuildPayload dlStub reqMsgHi).map geminiPayloadMaxOutputTokens =
      Except.ok (some 2048) ∧
    reqMsgHi.maxTokens = none := by
  exact ⟨rfl, rfl⟩

/-- Claim C6 witness: payload fields at a concrete request with explicit
temperature and absent max tokens. -/
theorem claim6_witness :
    (payloadGroqHi.temperature = reqMsgHi.temperature ∧
      payloadGroqHi.maxTokens = reqMsgHi.maxTokens) ∧
    (geminiPayloadTemperature payloadGeminiOldHi = reqMsgHi.temperature ∧
      geminiPayloadMaxOutputTokens payloadGeminiOldHi = reqMsgHi.maxTokens) ∧
    (geminiPayloadTemperature payloadGeminiRegHi = reqMsgHi.temperature ∧
      geminiPayloadMaxOutputTokens payloadGeminiRegHi = some (reqMsgHi.maxTokens.getD 2048)) :=
  ⟨(claim6_optional_params dlStub reqMsgHi).1 payloadGroqHi rfl,
   (claim6_optional_params dlStub reqMsgHi).2.2.2.2.1 payloadGeminiOldHi rfl,
   (claim6_optional_params dlStub reqMsgHi).2.2.2.2.2 payloadGeminiRegHi rfl⟩

/-- Claim C9 (corrected): only the registry.go Gemini variant substitutes
the fixed non-empty truncation placeholder when the lower-cased finish
reason is "max_tokens" and the candidate carries zero parts; the older
gemini.go mapping leaves the content empty in the same situation. -/
theorem claim9_truncation_placeholder (k i : Nat) (l : List GeminiCandidate)
    (cand : GeminiCandidate) (hget : l[i]? = some cand)
    (hfr : goToLower cand.finishReason = "max_tokens")
    (hparts : cand.parts = []) :
    ((geminiRegistryMapChoices k l)[i]?).map (fun c => c.message.content) =
      some [{ type := "text", text := truncationPlaceholder }] ∧
    truncationPlaceholder ≠ "" ∧
    ((geminiOldMapChoices k l)[i]?).map (fun c => c.message.content) =
      some [{ type := "text", text := "" }] := by
  induction l generalizing k i with
  | nil => simp at hget
  | cons c rest ih =>
    cases i with
    | zero =>
      simp only [List.getElem?_cons_zero, Option.some.injEq] at hget
      subst hget
      refine ⟨?_, by decide, ?_⟩
      · simp [geminiRegistryMapChoices, hfr, hparts]
      · simp [geminiOldMapChoices, hparts]
    | succ n =>
      simp only [List.getElem?_cons_succ] at hget
      have h := ih (k + 1) n hget
      simp only [geminiRegistryMapChoices, geminiOldMapChoices, List.getElem?_cons_succ]
      exact h

/-- Claim C9 counterexample: the Groq adapter maps an upstream truncation
reply ("length" with empty content) to an empty content string, not to a
placeholder. -/
theorem claim9_counterexample :
    ((groqMapResponse upstreamLenEmpty).choices[0]?).map (fun c => c.message.content) =
      some [{ type := "text", text := "" }] ∧
    (upstreamLenEmpty.choices[0]?).map UpstreamChoice.finishReason = some "length" ∧
    ("" : String) ≠ truncationPlaceholder := by
  refine ⟨rfl, rfl, by decide⟩

/-- Claim C9 witness: the placeholder substitution at a concrete
truncated candidate. -/
theorem claim9_witness :
    ((geminiRegistryMapChoices 0 [candTrunc])[0]?).map (fun c => c.message.content) =
      some [{ type := "text", text := truncationPlaceholder }] ∧
    truncationPlaceholder ≠ "" ∧
    ((geminiOldMapChoices 0 [candTrunc])[0]?).map (fun c => c.message.content) =
      some [{ type := "text", text := "" }] :=
  claim9_truncation_placeholder 0 0 [candTrunc] candTrunc rfl (by decide) rfl

/-- Helper: the standard alphabet faithfully inverts on all 64 six-bit
values, and never produces the padding character. -/
theorem b64_table : ∀ m : Fin 64, b64Index (b64Char m.val) = m.val ∧ b64Char m.val ≠ '=' := by
  decide

/-- Helper: decoding inverts the alphabet on six-bit values. -/
theorem b64_index_b64Char (n : Nat) (h : n < 64) : b64Index (b64Char n) = n :=
  (b64_table ⟨n, h⟩).1

/-- Helper: alphabet characters are never the padding character. -/
theorem b64Char_ne_pad (n : Nat) (h : n < 64) : b64Char n ≠ '=' :=
  (b64_table ⟨n, h⟩).2

/-- Helper: decoding a full quadruple of non-padding characters. -/
theorem base64DecodeList_cons (c1 c2 c3 c4 : Char) (rest : List Char)
    (h3 : c3 ≠ '=') (h4 : c4 ≠ '=') :
    base64DecodeList (c1 :: c2 :: c3 :: c4 :: rest) =
      (b64Index c1 * 4 + b64Index c2 / 16) ::
      (b64Index c2 % 16 * 16 + b64Index c3 / 4) ::
      (b64Index c3 % 4 * 64 + b64Index c4) :: base64DecodeList rest := by
  simp [base64DecodeList, h3, h4]

/-- Helper: decoding a doubly padded final quadruple. -/
theorem base64DecodeList_pad2 (c1 c2 : Char) :
    base64DecodeList [c1, c2, '=', '='] = [b64Index c1 * 4 + b64Index c2 / 16] := by
  simp [base64DecodeList]

/-- Helper: decoding a singly padded final quadruple. -/
theorem base64DecodeList_pad1 (c1 c2 c3 : Char) (h3 : c3 ≠ '=') :
    base64DecodeList [c1, c2, c3, '='] =
      [b64Index c1 * 4 + b64Index c2 / 16,
       b64Index c2 % 16 * 16 + b64Index c3 / 4] := by
  simp [base64DecodeList, h3]

/-- Helper: StdEncoding decoding inverts StdEncoding encoding on every
byte sequence. -/
theorem base64_decode_encode : ∀ bs : List Nat, (∀ b ∈ bs, b < 256) →
    base64DecodeList (base64EncodeList bs) = bs
  | [], _ => rfl
  | [a], h => by
    have ha : a < 256 := h a (by simp)
    have h2 : a % 4 * 16 < 64 := by omega
    simp only [base64EncodeList]
    rw [base64DecodeList_pad2]
    rw [b64_index_b64Char _ (by omega), b64_index_b64Char _ h2]
    have e1 : a / 4 * 4 + a % 4 * 16 / 16 = a := by omega
    rw [e1]
  | [a, b], h => by
    have ha : a < 256 := h a (by simp)
    have hb : b < 256 := h b (by simp)
    have h2 : a % 4 * 16 + b / 16 < 64 := by omega
    have h3 : b % 16 * 4 < 64 := by omega
    simp only [base64EncodeList]
    rw [base64DecodeList_pad1 _ _ _ (b64Char_ne_pad _ h3)]
    rw [b64_index_b64Char _ (by omega), b64_index_b64Char _ h2, b64_index_b64Char _ h3]
    have e1 : a / 4 * 4 + (a % 4 * 16 + b / 16) / 16 = a := by omega
    have e2 : (a % 4 * 16 + b / 16) % 16 * 16 + b % 16 * 4 / 4 = b := by omega
    rw [e1, e2]
  | a :: b :: c :: rest, h => by
    have ha : a < 256 := h a (by simp)
    have hb : b < 256 := h b (by simp)
    have hc : c < 256 := h c (by simp)
    have hrest : ∀ x ∈ rest, x < 256 := fun x hx => h x (by simp [hx])
    have ih := base64_decode_encode rest hrest
    have h2 : a % 4 * 16 + b / 16 < 64 := by omega
    have h3 : b % 16 * 4 + c / 64 < 64 := by omega
    have h4 : c % 64 < 64 := by omega
    simp only [base64EncodeList]
    rw [base64DecodeList_cons _ _ _ _ _ (b64Char_ne_pad _ h3) (b64Char_ne_pad _ h4)]
    rw [b64_index_b64Char _ (by omega), b64_index_b64Char _ h2,
      b64_index_b64Char _ h3, b64_index_b64Char _ h4]
    rw [ih]
    have e1 : a / 4 * 4 + (a % 4 * 16 + b / 16) / 16 = a := by omega
    have e2 : (a % 4 * 16 + b / 16) % 16 * 16 + (b % 16 * 4 + c / 64) / 4 = b := by omega
    have e3 : (b % 16 * 4 + c / 64) % 4 * 64 + c % 64 = c := by omega
    rw [e1, e2, e3]

/-- Helper: a list is a prefix of itself extended by anything. -/
theorem hasPrefixL_self_append (p r : List Char) : hasPrefixL p (p ++ r) = true := by
  induction p with
  | nil => rfl
  | cons c cs ih => simp [hasPrefixL, ih]

/-- Helper: splitting at the first comma of `pre ++ [','] ++ suf` when
`pre` is comma-free yields exactly `(pre, suf)`. -/
theorem breakAtComma_append (pre suf : List Char) (h : ',' ∉ pre) :
    breakAtComma (pre ++ ',' :: suf) = some (pre, suf) := by
  induction pre with
  | nil => simp [breakAtComma]
  | cons c cs ih =>
    have hc : ¬ (c = ',') := fun he => h (by simp [he])
    have hcs : ',' ∉ cs := fun hm => h (by simp [hm])
    simp [breakAtComma, hc, ih hcs]

/-- Helper: a comma-free string has no split point. -/
theorem breakAtComma_none (s : List Char) (h : ',' ∉ s) : breakAtComma s = none := by
  induction s with
  | nil => rfl
  | cons c cs ih =>
    have hc : ¬ (c = ',') := fun he => h (by simp [he])
    have hcs : ',' ∉ cs := fun hm => h (by simp [hm])
    simp [breakAtComma, hc, ih hcs]

/-- Claim C8: image resolution round-trips data URIs. Encoding arbitrary
bytes into a `data:image/png;base64,` URI and resolving it yields the
encoded payload with mime type image/png, and decoding that payload
restores the original bytes; in general the resolver splits at the first
comma and takes the mime type as the header with `data:` and `;base64`
trimmed, failing with the malformed-data-URI error when no comma is
present. -/
theorem claim8_data_uri_roundtrip
    (download : List Char → Except String (List Char × List Char)) :
    (∀ bs : List Nat, (∀ b ∈ bs, b < 256) →
      geminiResolveImageRef download ("data:image/png;base64,".toList ++ base64EncodeList bs) =
        Except.ok (base64EncodeList bs, "image/png".toList) ∧
      base64DecodeList (base64EncodeList bs) = bs) ∧
    (∀ header payload : List Char, ',' ∉ header →
      hasPrefixL "data:image/".toList (header ++ ',' :: payload) = true →
      geminiResolveImageRef download (header ++ ',' :: payload) =
        Except.ok (payload, trimSuffixL ";base64".toList (trimPrefixL "data:".toList header))) ∧
    (∀ uri : List Char, hasPrefixL "data:image/".toList uri = true → ',' ∉ uri →
      geminiResolveImageRef download uri = Except.error "invalid image data URI format") := by
  have hgen : ∀ header payload : List Char, ',' ∉ header →
      hasPrefixL "data:image/".toList (header ++ ',' :: payload) = true →
      geminiResolveImageRef download (header ++ ',' :: payload) =
        Except.ok (payload, trimSuffixL ";base64".toList (trimPrefixL "data:".toList header)) := by
    intro header payload hcomma hpre
    unfold geminiResolveImageRef
    rw [if_pos hpre]
    unfold geminiResolveDataURI
    rw [breakAtComma_append _ _ hcomma]
  refine ⟨?_, hgen, ?_⟩
  · intro bs h
    have hsplit : "data:image/png;base64,".toList =
        "data:image/png;base64".toList ++ ',' :: ([] : List Char) := by decide
    have hpre : hasPrefixL "data:image/".toList
        ("data:image/png;base64,".toList ++ base64EncodeList bs) = true := by
      have hdec : "data:image/png;base64,".toList =
          "data:image/".toList ++ "png;base64,".toList := by decide
      rw [hdec, List.append_assoc]
      exact hasPrefixL_self_append _ _
    refine ⟨?_, base64_decode_encode bs h⟩
    have hmime : trimSuffixL ";base64".toList
        (trimPrefixL "data:".toList "data:image/png;base64".toList) = "image/png".toList := by
      decide
    have hassoc : "data:image/png;base64,".toList ++ base64EncodeList bs =
        "data:image/png;base64".toList ++ ',' :: base64EncodeList bs := by
      rw [hsplit, List.append_assoc]
      rfl
    rw [hassoc] at hpre ⊢
    rw [hgen _ _ (by decide) hpre, hmime]
  · intro uri hpre hcomma
    unfold geminiResolveImageRef
    rw [if_pos hpre]
    unfold geminiResolveDataURI
    rw [breakAtComma_none _ hcomma]

/-- Claim C8 witness: the round-trip and the failure mode at concrete
inputs. -/
theorem claim8_witness :
    (geminiResolveImageRef dlStub
        ("data:image/png;base64,".toList ++ base64EncodeList pngBytes) =
      Except.ok (base64EncodeList pngBytes, "image/png".toList) ∧
     base64DecodeList (base64EncodeList pngBytes) = pngBytes) ∧
    geminiResolveImageRef dlStub ("data:image/gif;base64".toList ++ ',' :: "QUJD".toList) =
      Except.ok ("QUJD".toList,
        trimSuffixL ";base64".toList (trimPrefixL "data:".toList "data:image/gif;base64".toList)) ∧
    geminiResolveImageRef dlStub "data:image/png".toList =
      Except.error "invalid image data URI format" :=
  ⟨(claim8_data_uri_roundtrip dlStub).1 pngBytes (by decide),
   (claim8_data_uri_roundtrip dlStub).2.1 _ _ (by decide) (by decide),
   (claim8_data_uri_roundtrip dlStub).2.2 _ (by decide) (by decide)⟩

end EncoreChat
